import Mathlib

/-!
Verification engine of the patabasefiti backend: a shallow embedding.

This development embeds the property-verification subsystem of the
backend (SQLAlchemy models, CRUD layer, service layer and REST endpoint
handlers) as pure Lean functions over an explicit database state, and
proves/refutes the specification claims about it.

Conventions of the embedding:

* Timestamps are `Int` seconds; `datetime.utcnow()` readings are passed
  in as explicit parameters (`now`, or `t1`/`t2` where the source calls
  `utcnow()` twice in one operation).
* SQLAlchemy sessions are modelled by an explicit `DB` value holding the
  committed rows.  An operation returns `Except PyErr α × DB`: the
  second component is the state persisted when the operation finished or
  raised (updates the source commits before a later exception are kept;
  mutations that were still uncommitted when the exception fired are
  dropped, matching a session that is discarded without a final commit).
* Python exceptions (`AttributeError` for a missing attribute,
  `NameError`/`ImportError` for a name with no definition anywhere in
  the code base, SQLite `IntegrityError` for a foreign-key violation
  under `PRAGMA foreign_keys=ON` from `app/db/database.py`, `ValueError`,
  and FastAPI `HTTPException`s) are the constructors of `PyErr`.
* The JSON text stored in the `response_data` / `system_decision`
  columns is modelled by the inductive `JsonText`, one constructor per
  distinct shape the code ever serializes.
-/

/-- Seconds per day; `timedelta(days=n)` is `n * day`. -/
def day : Int := 86400

/-- Python-level failures surfaced by the verification code paths. -/
inductive PyErr where
  /-- Python `AttributeError`: reading an attribute that does not exist. -/
  | attributeError (attr : String)
  /-- Python `NameError`/`ImportError`: a name imported or used but defined
      nowhere in the code base. -/
  | nameError (nm : String)
  /-- FastAPI `HTTPException(404)`. -/
  | httpNotFound
  /-- FastAPI `HTTPException(403)`. -/
  | httpForbidden
  /-- Python `ValueError` raised by application code. -/
  | valueError
  /-- SQLite `IntegrityError`: foreign-key constraint violation at
      commit time (`PRAGMA foreign_keys=ON` in `app/db/database.py`). -/
  | integrityError
deriving Repr, DecidableEq

/-- Serialized JSON text held in a `Text` column (`response_data`,
`system_decision`).  Distinct serialized shapes are distinct
constructors. -/
inductive JsonText where
  /-- The empty object `"\x7b\x7d"`. -/
  | emptyObj
  /-- Result of `json.dumps` of the owner-response payload built in
      `respond_to_verification` (`verifications.py` lines 310-314). -/
  | ownerResponse (owner_id : Nat) (response : String) (timestamp : Int)
  /-- Result of `json.dumps` of the admin decision built in
      `CRUDVerification.admin_verify` (`crud/verification.py` 232-241). -/
  | adminDecision (admin_id : Nat) (stat : String) (timestamp : Int) (notes : Option String)
deriving Repr, DecidableEq

/-- The parsed content of the `auto_verification_settings` JSON column of
`Property` (`models.py` line 58); a field is `none` when the stored JSON
object lacks the key, matching `settings.get(key, default)`. -/
structure AutoVerificationSettings where
  enabled : Option Bool
  frequency_days : Option Int
deriving Repr, DecidableEq

/-- Row of the `properties` table — the columns the verification engine
reads or writes (`models.py` lines 30-59). -/
structure Property where
  id : Nat
  owner_id : Nat
  availability_status : String
  verification_status : String
  reliability_score : Option Rat
  last_verified : Option Int
  expiration_date : Option Int
  auto_verification_settings : AutoVerificationSettings
deriving Repr, DecidableEq

/-- Row of the `verifications` table (`models.py` lines 216-227).
`response_data` and `system_decision` are nullable `Text` columns. -/
structure Verification where
  id : Nat
  property_id : Nat
  verification_type : String
  requested_at : Int
  status : String
  responder_id : Option Nat
  expiration : Option Int
  response_data : Option JsonText
  system_decision : Option JsonText
deriving Repr, DecidableEq

/-- Row of the append-only `verification_history` table
(`models.py` lines 252-260). -/
structure VerificationHistory where
  property_id : Nat
  status : String
  verified_by : String
  timestamp : Int
  notes : Option String
deriving Repr, DecidableEq

/-- Committed database state: the three tables the engine touches, plus
the autoincrement counter for `verifications.id`. -/
structure DB where
  properties : List Property
  verifications : List Verification
  history : List VerificationHistory
  nextVerificationId : Nat
deriving Repr, DecidableEq

/-- Lookup `db.query(Property).filter(Property.id == id).first()`. -/
def DB.getProperty (db : DB) (i : Nat) : Option Property :=
  db.properties.find? (fun p => p.id == i)

/-- Lookup `db.query(Verification).filter(Verification.id == id).first()`
(`CRUDBase.get`). -/
def DB.getVerification (db : DB) (i : Nat) : Option Verification :=
  db.verifications.find? (fun v => v.id == i)

/-- Commit of a mutation of the verification row whose `id` is `vid`
(SQLAlchemy mutates the fetched object in place; rows are keyed by id). -/
def updateVerificationById (db : DB) (vid : Nat) (f : Verification → Verification) : DB :=
  { db with verifications := db.verifications.map (fun v => if v.id = vid then f v else v) }

/-- Commit of a mutation of the property row whose `id` is `pid`. -/
def updatePropertyById (db : DB) (pid : Nat) (f : Property → Property) : DB :=
  { db with properties := db.properties.map (fun p => if p.id = pid then f p else p) }

/-- Status of the verification row with id `i`, read back from the
database. -/
def statusById (db : DB) (i : Nat) : Option String :=
  (db.getVerification i).map (fun v => v.status)

/-- Reliability score of the property row with id `i`. -/
def scoreById (db : DB) (i : Nat) : Option (Option Rat) :=
  (db.getProperty i).map (fun p => p.reliability_score)

/-- Result dictionary returned by `VerificationService` methods that do
not raise: the `success` flag and the `message` key. -/
structure ServiceResult where
  success : Bool
  message : String
deriving Repr, DecidableEq

/-- Check `verification.expiration and verification.expiration < datetime.utcnow()`
(`verification_service.py` line 50): false when the column is NULL. -/
def expirationLt (e : Option Int) (now : Int) : Bool :=
  match e with
  | none => false
  | some t => t < now

/-- Embeds `VerificationService.process_verification_response`
(`verification_service.py` lines 21-95).

The checks at lines 41-51 run before any mutation.  On the path that
passes them, `verification_crud.update` (line 59) commits
`status="completed"` and `responder_id` (the extra `response=` keyword
in the `VerificationUpdate` at lines 54-58 is not a field of the schema
and pydantic silently drops it).  Line 68 then evaluates
`property_crud.update_availability_status`, but `CRUDProperty`
(`crud/property.py`) defines no such method, so an `AttributeError` is
raised with the record update already committed.  (The history and
token steps at lines 72-87 are unreachable; line 73 would in any case
evaluate `VerificationHistoryCreate`, a name `app/schemas/verification.py`
never defines.) -/
def process_verification_response (db : DB) (now : Int) (verification_id : Nat)
    (response : String) (responder_id : Nat) : Except PyErr ServiceResult × DB :=
  match db.getVerification verification_id with
  | none => (.ok ⟨false, "Verification not found"⟩, db)
  | some verification =>
    if verification.status ≠ "pending" then
      (.ok ⟨false, "Verification already processed"⟩, db)
    else if expirationLt verification.expiration now then
      (.ok ⟨false, "Verification has expired"⟩, db)
    else
      let db1 := updateVerificationById db verification.id
        (fun v => { v with status := "completed", responder_id := some responder_id })
      match db1.getProperty verification.property_id with
      | none => (.ok ⟨false, "Property not found"⟩, db1)
      | some _ => (.error (.attributeError "update_availability_status"), db1)

/-- Python's `str.lower()`: character-wise lowercasing. -/
def pyLower (s : String) : String :=
  String.mk (s.data.map Char.toLower)

/-- Expression `"available" if response.lower() == "yes" else "rented"`
(`verification_service.py` line 67): the availability status the service
would write had the call at line 68 existed. -/
def responseToStatus (response : String) : String :=
  if pyLower response == "yes" then "available" else "rented"

/-- Expression `max(0, (property_obj.reliability_score or 0.5) - 0.1)`
(`verification_service.py` line 207).  Python's `or` treats both `None`
and `0.0` as falsy, so a score of exactly `0` is replaced by the `0.5`
default before the penalty is subtracted. -/
def newReliabilityScore (score : Option Rat) : Rat :=
  max 0 ((match score with
          | none => (1 : Rat) / 2
          | some s => if s = 0 then (1 : Rat) / 2 else s) - 1 / 10)

/-- Filter `Verification.status == "pending" AND Verification.expiration < now`
(`crud/verification.py` lines 297-304); a NULL expiration never compares
below `now`. -/
def expiredPendingFilter (now : Int) (v : Verification) : Bool :=
  v.status == "pending" && expirationLt v.expiration now

/-- The record update committed for each expired verification
(`verification_service.py` lines 196-201).  The `system_decision`
string passed to `VerificationUpdate` is not valid JSON, so the pydantic
validator replaces it with `\x7b\x7d` before it is stored. -/
def markExpired (v : Verification) : Verification :=
  { v with status := "expired", system_decision := some .emptyObj }

/-- Loop body of `process_expired_verifications`
(`verification_service.py` lines 195-220).  Per record:
`verification_crud.update` commits the `expired` status; when the
property exists, the reliability-score assignment (lines 207-209) is
only `db.add`ed — still uncommitted — when line 212 evaluates
`VerificationHistoryCreate`, a name that `app/schemas/verification.py`
never defines (the import at lines 11-15 of the service can only raise),
so the loop dies there and the score write is lost; when the property is
missing, the record is counted and the loop continues. -/
def sweepLoop (now : Int) (db : DB) (count : Nat) :
    List Verification → Except PyErr Nat × DB
  | [] => (.ok count, db)
  | v :: rest =>
    match (updateVerificationById db v.id markExpired).getProperty v.property_id with
    | none => sweepLoop now (updateVerificationById db v.id markExpired) (count + 1) rest
    | some _ =>
      (.error (.nameError "VerificationHistoryCreate"), updateVerificationById db v.id markExpired)

/-- Embeds `VerificationService.process_expired_verifications`
(`verification_service.py` lines 182-227): select the expired pending
records (`get_expired_pending_verifications`, `crud/verification.py`
lines 294-311), then run the per-record loop. -/
def process_expired_verifications (db : DB) (now : Int) : Except PyErr Nat × DB :=
  sweepLoop now db 0 (db.verifications.filter (expiredPendingFilter now))

/-- Condition `Property.last_verified == None | Property.last_verified < cutoff`. -/
def lastVerifiedBefore (lv : Option Int) (cutoff : Int) : Bool :=
  match lv with
  | none => true
  | some t => t < cutoff

/-- SQL pre-filter of `_get_properties_due_for_verification`
(`verification_service.py` lines 156-165): available properties whose
`last_verified` is NULL or older than the hard-coded 7-day cutoff. -/
def dueSqlFilter (now : Int) (p : Property) : Bool :=
  p.availability_status == "available" && lastVerifiedBefore p.last_verified (now - 7 * day)

/-- Per-property loop of `_get_properties_due_for_verification`
(`verification_service.py` lines 168-179).  Its first statement reads
`prop.auto_verification_settings_json`, an attribute that `Property`
(`models.py`) does not have — the model only defines the method
`get_auto_verification_settings_json()` — so the first iteration raises
`AttributeError`. -/
def duePropsLoop (now : Int) : List Property → Except PyErr (List Property)
  | [] => .ok []
  | _ :: _ => .error (.attributeError "auto_verification_settings_json")

/-- Embeds `VerificationService._get_properties_due_for_verification`
(`verification_service.py` lines 143-180). -/
def get_properties_due_for_verification (db : DB) (now : Int) :
    Except PyErr (List Property) :=
  duePropsLoop now (db.properties.filter (dueSqlFilter now))

/-- Scheduling loop of `schedule_automatic_verifications`
(`verification_service.py` lines 111-135): its first statement (line
113) reads the same nonexistent `auto_verification_settings_json`
attribute, so any nonempty list raises `AttributeError` before any
record is created. -/
def scheduleLoop (db : DB) (count : Nat) :
    List Property → Except PyErr Nat × DB
  | [] => (.ok count, db)
  | _ :: _ => (.error (.attributeError "auto_verification_settings_json"), db)

/-- Embeds `VerificationService.schedule_automatic_verifications`
(`verification_service.py` lines 97-141). -/
def schedule_automatic_verifications (db : DB) (now : Int) :
    Except PyErr Nat × DB :=
  match get_properties_due_for_verification db now with
  | .error e => (.error e, db)
  | .ok props => scheduleLoop db 0 props

/-- The fields a PUT/`VerificationUpdate` payload may carry
(`app/schemas/verification.py` lines 36-59); `none` means the field was
not set (`exclude_unset=True`). -/
structure VerificationUpdate where
  stat : Option String := none
  responder_id : Option Nat := none
  expiration : Option Int := none
  response_data : Option JsonText := none
  system_decision : Option JsonText := none
deriving Repr, DecidableEq

/-- Field-wise application of an update payload to a row
(`CRUDVerification.update`, `crud/verification.py` lines 185-217):
every field present in the payload is written unconditionally. -/
def applyVerificationUpdate (u : VerificationUpdate) (v : Verification) : Verification :=
  { v with
    status := u.stat.getD v.status
    responder_id := match u.responder_id with
      | some r => some r
      | none => v.responder_id
    expiration := match u.expiration with
      | some e => some e
      | none => v.expiration
    response_data := match u.response_data with
      | some d => some d
      | none => v.response_data
    system_decision := match u.system_decision with
      | some d => some d
      | none => v.system_decision }

/-- Endpoint `PUT /verifications/:id` — `update_verification`
(`api_v1/endpoints/verifications.py` lines 245-279): 404 when the record
is missing, 403 unless the caller is an admin, then
`CRUDVerification.update` writes whatever fields the payload carries —
including `status`, with no check of the current status. -/
def update_verification (db : DB) (verification_id : Nat)
    (u : VerificationUpdate) (is_admin : Bool) : Except PyErr Verification × DB :=
  match db.getVerification verification_id with
  | none => (.error .httpNotFound, db)
  | some verification =>
    if !is_admin then (.error .httpForbidden, db)
    else
      (.ok (applyVerificationUpdate u verification),
       updateVerificationById db verification.id (applyVerificationUpdate u))

/-- Endpoint `POST /verifications/respond/:id` — `respond_to_verification`
(`api_v1/endpoints/verifications.py` lines 281-335): 404 when the record
is missing; when the record's property is missing, line 303 dereferences
`None` (`AttributeError`); 403 unless the caller owns the property.  No
check of the record's status is performed: `CRUDVerification.update`
commits `responder_id` and the serialized response payload (lines
310-321; `status` is not among the updated fields), and a history row
with `status="owner_responded"` and `verified_by="owner_" + id` is
appended (lines 324-330) whatever the record's status was. -/
def respond_to_verification (db : DB) (now : Int) (verification_id : Nat)
    (response : String) (current_user_id : Nat) : Except PyErr Verification × DB :=
  match db.getVerification verification_id with
  | none => (.error .httpNotFound, db)
  | some verification =>
    match db.getProperty verification.property_id with
    | none => (.error (.attributeError "owner_id"), db)
    | some property =>
      if property.owner_id ≠ current_user_id then (.error .httpForbidden, db)
      else
        let upd : Verification → Verification := fun v =>
          { v with responder_id := some current_user_id
                   response_data := some (.ownerResponse current_user_id response now) }
        let db1 := updateVerificationById db verification.id upd
        let entry : VerificationHistory :=
          { property_id := property.id
            status := "owner_responded"
            verified_by := "owner_" ++ toString current_user_id
            timestamp := now
            notes := some ("Owner responded to verification request: "
                            ++ response.take 100 ++ "...") }
        (.ok (upd verification), { db1 with history := db1.history ++ [entry] })

/-- The payload of a `VerificationCreate`
(`app/schemas/verification.py` lines 10-33). -/
structure VerificationCreate where
  property_id : Nat
  verification_type : String
  stat : String := "pending"
  expiration : Option Int := none
  response_data : Option JsonText := none
  system_decision : Option JsonText := none
deriving Repr, DecidableEq

/-- Embeds `CRUDVerification.create` (`crud/verification.py` lines 71-100):
no existence check on `property_id`; the JSON columns default to the
empty object; the insert is committed, and with
`PRAGMA foreign_keys=ON` (`app/db/database.py` lines 19-24) the commit
raises `IntegrityError` — persisting nothing — when the referenced
property does not exist. -/
def CRUDVerification_create (db : DB) (now : Int) (obj : VerificationCreate) :
    Except PyErr Verification × DB :=
  let rec0 : Verification :=
    { id := db.nextVerificationId
      property_id := obj.property_id
      verification_type := obj.verification_type
      requested_at := now
      status := obj.stat
      responder_id := none
      expiration := obj.expiration
      response_data := some (obj.response_data.getD .emptyObj)
      system_decision := some (obj.system_decision.getD .emptyObj) }
  match db.getProperty obj.property_id with
  | none => (.error .integrityError, db)
  | some _ =>
    (.ok rec0,
     { db with verifications := db.verifications ++ [rec0]
               nextVerificationId := db.nextVerificationId + 1 })

/-- Embeds `CRUDProperty.create` (`crud/property.py` lines 50-72) — despite its
host class this method creates a `Verification`; it checks that the
referenced property exists and raises `ValueError` otherwise, and leaves
the JSON columns NULL. -/
def CRUDProperty_create (db : DB) (now : Int) (obj : VerificationCreate) :
    Except PyErr Verification × DB :=
  match db.getProperty obj.property_id with
  | none => (.error .valueError, db)
  | some _ =>
    let rec0 : Verification :=
      { id := db.nextVerificationId
        property_id := obj.property_id
        verification_type := obj.verification_type
        requested_at := now
        status := obj.stat
        responder_id := none
        expiration := obj.expiration
        response_data := none
        system_decision := none }
    (.ok rec0,
     { db with verifications := db.verifications ++ [rec0]
               nextVerificationId := db.nextVerificationId + 1 })

/-- Endpoint `POST /verifications/` — `create_verification`
(`api_v1/endpoints/verifications.py` lines 40-67): 404 when the property
does not exist, 403 unless the caller owns it or is an admin, then
`CRUDVerification.create`. -/
def create_verification_endpoint (db : DB) (now : Int) (obj : VerificationCreate)
    (current_user_id : Nat) (is_admin : Bool) : Except PyErr Verification × DB :=
  match db.getProperty obj.property_id with
  | none => (.error .httpNotFound, db)
  | some property =>
    if property.owner_id ≠ current_user_id && !is_admin then (.error .httpForbidden, db)
    else CRUDVerification_create db now obj

/-- Embeds `CRUDProperty.update_verification_status`
(`crud/property.py` lines 441-458).  The source calls
`datetime.datetime.utcnow()` twice: `t1` is the reading written to
`last_verified` (line 450) and `t2` the later reading used for
`expiration_date` (line 454), which is only written when the new status
is `"verified"`. -/
def update_verification_status (db : DB) (property_id : Nat) (stat : String)
    (t1 t2 : Int) : Option Property × DB :=
  match db.getProperty property_id with
  | none => (none, db)
  | some p =>
    let p1 := { p with verification_status := stat, last_verified := some t1 }
    let p2 := if stat == "verified"
              then { p1 with expiration_date := some (t2 + 30 * day) }
              else p1
    (some p2, updatePropertyById db property_id (fun _ => p2))

/-- Whether a `Except`-wrapped service result reports success
(`result["success"]`; an exception is no success). -/
def isSuccess : Except PyErr ServiceResult → Bool
  | .ok r => r.success
  | .error _ => false

/-- The statuses the spec calls terminal for a `VerificationRecord`. -/
def terminalStatuses : List String := ["expired", "verified", "rejected", "completed"]

/-- Concrete state for C1: one owned property and one already-expired
verification record. -/
def dbC1 : DB :=
  { properties := [⟨1, 5, "available", "pending", some (1/2), none, none, ⟨some true, some 7⟩⟩]
    verifications := [⟨1, 1, "automatic", 0, "expired", none, some 0, none, some .emptyObj⟩]
    history := []
    nextVerificationId := 2 }

/-- Concrete state for C2: one available, never-verified property with
auto-verification enabled. -/
def dbC2 : DB :=
  { properties := [⟨1, 5, "available", "pending", some (1/2), none, none, ⟨some true, some 7⟩⟩]
    verifications := []
    history := []
    nextVerificationId := 1 }

/-- Concrete state for C3: one pending verification past its deadline,
its property present with reliability score 0.5. -/
def dbC3 : DB :=
  { properties := [⟨1, 5, "available", "pending", some (1/2), none, none, ⟨some true, some 7⟩⟩]
    verifications := [⟨1, 1, "automatic", 0, "pending", none, some 0, some .emptyObj, some .emptyObj⟩]
    history := []
    nextVerificationId := 2 }

/-- Concrete state for C4: the spec's scenario — a pending, unexpired
record on an available property. -/
def dbC4 : DB :=
  { properties := [⟨1, 5, "available", "pending", some (1/2), none, none, ⟨some true, some 7⟩⟩]
    verifications := [⟨1, 1, "automatic", 0, "pending", none, some (10 * day), some .emptyObj, some .emptyObj⟩]
    history := []
    nextVerificationId := 2 }

/-- Concrete state for C5: an empty database (no property with id 1). -/
def dbC5 : DB :=
  { properties := [], verifications := [], history := [], nextVerificationId := 1 }

/-- Concrete state for C6: one property. -/
def dbC6 : DB :=
  { properties := [⟨1, 5, "available", "pending", none, none, none, ⟨some true, some 7⟩⟩]
    verifications := []
    history := []
    nextVerificationId := 1 }

/-- Concrete state for C7's counterexample: one expired record. -/
def dbC7 : DB :=
  { properties := []
    verifications := [⟨1, 1, "automatic", 0, "expired", none, some 0, none, some .emptyObj⟩]
    history := []
    nextVerificationId := 2 }

/-- Concrete state for C7's witness: a record in the terminal status
`verified` next to a pending one, sharing one property. -/
def dbC7w : DB :=
  { properties := [⟨1, 5, "available", "verified", some (1/2), some 0, none, ⟨some true, some 7⟩⟩]
    verifications :=
      [⟨5, 1, "owner", 0, "verified", some 5, some 0, none, some .emptyObj⟩,
       ⟨6, 1, "automatic", 0, "pending", none, some 0, some .emptyObj, some .emptyObj⟩]
    history := []
    nextVerificationId := 7 }

/-- Concrete state for C8's and C10's witnesses: one pending record past
its deadline, property present. -/
def dbC10 : DB :=
  { properties := [⟨1, 5, "available", "pending", some (1/2), none, none, ⟨some true, some 7⟩⟩]
    verifications := [⟨1, 1, "automatic", 0, "pending", none, some 0, some .emptyObj, some .emptyObj⟩]
    history := []
    nextVerificationId := 2 }

/-- Concrete state for C9's witness: one record already expired. -/
def dbC9 : DB :=
  { properties := [⟨1, 5, "available", "pending", some (2/5), none, none, ⟨some true, some 7⟩⟩]
    verifications := [⟨1, 1, "automatic", 0, "expired", none, some 0, some .emptyObj, some .emptyObj⟩]
    history := []
    nextVerificationId := 2 }


/-- Properties are untouched by a verification-row update. -/
theorem updateVerificationById_properties (db : DB) (vid : Nat) (f : Verification → Verification) :
    (updateVerificationById db vid f).properties = db.properties := rfl

/-- History is untouched by a verification-row update. -/
theorem updateVerificationById_history (db : DB) (vid : Nat) (f : Verification → Verification) :
    (updateVerificationById db vid f).history = db.history := rfl

/-- Property lookup is untouched by a verification-row update. -/
theorem updateVerificationById_getProperty (db : DB) (vid : Nat)
    (f : Verification → Verification) (i : Nat) :
    (updateVerificationById db vid f).getProperty i = db.getProperty i := rfl

/-- Mapping an id-preserving function over a row list commutes with
lookup by id. -/
theorem find?_map_id_preserving (l : List Verification) (g : Verification → Verification)
    (hg : ∀ v, (g v).id = v.id) (i : Nat) :
    (l.map g).find? (fun v => v.id == i) = (l.find? (fun v => v.id == i)).map g := by
  induction l with
  | nil => rfl
  | cons a t ih =>
    simp only [List.map_cons, List.find?_cons]
    rw [hg a]
    cases h : (a.id == i) with
    | true => rfl
    | false => exact ih

/-- Looking up a verification after an in-place row update. -/
theorem getVerification_update (db : DB) (vid : Nat) (f : Verification → Verification)
    (hf : ∀ v, (f v).id = v.id) (i : Nat) :
    (updateVerificationById db vid f).getVerification i =
      (db.getVerification i).map (fun v => if v.id = vid then f v else v) := by
  unfold updateVerificationById DB.getVerification
  exact find?_map_id_preserving db.verifications _
    (fun v => by by_cases h : v.id = vid <;> simp [h, hf]) i

/-- Status read after an in-place row update. -/
theorem statusById_update (db : DB) (vid : Nat) (f : Verification → Verification)
    (hf : ∀ v, (f v).id = v.id) (i : Nat) :
    statusById (updateVerificationById db vid f) i =
      (db.getVerification i).map (fun v => (if v.id = vid then f v else v).status) := by
  unfold statusById
  rw [getVerification_update db vid f hf i, Option.map_map]
  rfl

/-- In a table whose ids are pairwise distinct, looking up a member row
by its own id returns that row. -/
theorem find?_eq_of_nodup (l : List Verification)
    (hnd : (l.map (fun v => v.id)).Nodup) (v : Verification) (hv : v ∈ l) :
    l.find? (fun w => w.id == v.id) = some v := by
  induction l with
  | nil => cases hv
  | cons a t ih =>
    rcases List.mem_cons.mp hv with rfl | hvt
    · simp [List.find?_cons]
    · have hne : a.id ≠ v.id := by
        intro he
        have hmem : v.id ∈ t.map (fun w => w.id) := List.mem_map_of_mem _ hvt
        rw [← he] at hmem
        exact (List.nodup_cons.mp hnd).1 hmem
      rw [List.find?_cons]
      cases h : (a.id == v.id) with
      | true => exact absurd (by simpa using h) hne
      | false => exact ih (List.nodup_cons.mp hnd).2 hvt

/-- The sweeper loop never touches the `properties` or `history`
tables: the score write and the history insert of the source die on the
undefined name `VerificationHistoryCreate` before any commit reaches
them. -/
theorem sweepLoop_properties_history (now : Int) :
    ∀ (l : List Verification) (db : DB) (c : Nat),
      (sweepLoop now db c l).2.properties = db.properties ∧
      (sweepLoop now db c l).2.history = db.history := by
  intro l
  induction l with
  | nil => intro db c; exact ⟨rfl, rfl⟩
  | cons v rest ih =>
    intro db c
    rw [sweepLoop]
    cases hp : (updateVerificationById db v.id markExpired).getProperty v.property_id with
    | none =>
      have := ih (updateVerificationById db v.id markExpired) (c + 1)
      rw [updateVerificationById_properties, updateVerificationById_history] at this
      simpa only [hp] using this
    | some p =>
      simp only [hp]
      exact ⟨updateVerificationById_properties db v.id markExpired,
             updateVerificationById_history db v.id markExpired⟩

/-- A record already in status `expired` keeps that status through any
run of the sweeper loop. -/
theorem sweepLoop_expired_stays (now : Int) :
    ∀ (l : List Verification) (db : DB) (c : Nat) (i : Nat),
      statusById db i = some "expired" →
      statusById (sweepLoop now db c l).2 i = some "expired" := by
  intro l
  induction l with
  | nil => intro db c i h; exact h
  | cons v rest ih =>
    intro db c i h
    have hstep : statusById (updateVerificationById db v.id markExpired) i = some "expired" := by
      rw [statusById_update db v.id markExpired (fun _ => rfl) i]
      cases hw : db.getVerification i with
      | none => rw [statusById, hw] at h; cases h
      | some w =>
        rw [statusById, hw] at h
        simp only [Option.map_some'] at h ⊢
        by_cases hid : w.id = v.id <;> simp [hid, markExpired, h]
    rw [sweepLoop]
    cases hp : (updateVerificationById db v.id markExpired).getProperty v.property_id with
    | none =>
      simp only [hp]
      exact ih (updateVerificationById db v.id markExpired) (c + 1) i hstep
    | some p => simpa only [hp] using hstep

/-- A record whose id is hit by no element of the processed list keeps
its status through the sweeper loop. -/
theorem sweepLoop_status_preserved (now : Int) :
    ∀ (l : List Verification) (db : DB) (c : Nat) (i : Nat) (s : String),
      statusById db i = some s →
      (∀ v ∈ l, v.id ≠ i) →
      statusById (sweepLoop now db c l).2 i = some s := by
  intro l
  induction l with
  | nil => intro db c i s h _; exact h
  | cons v rest ih =>
    intro db c i s h hni
    have hvne : v.id ≠ i := hni v (List.mem_cons_self v rest)
    have hstep : statusById (updateVerificationById db v.id markExpired) i = some s := by
      rw [statusById_update db v.id markExpired (fun _ => rfl) i]
      cases hw : db.getVerification i with
      | none => rw [statusById, hw] at h; cases h
      | some w =>
        rw [statusById, hw] at h
        simp only [Option.map_some'] at h ⊢
        have hwi : w.id = i := by simpa using List.find?_some hw
        have hwv : ¬ w.id = v.id := by
          rw [hwi]
          exact fun he => hvne he.symm
        simp [hwv, h]
    rw [sweepLoop]
    cases hp : (updateVerificationById db v.id markExpired).getProperty v.property_id with
    | none =>
      simp only [hp]
      exact ih (updateVerificationById db v.id markExpired) (c + 1) i s hstep
        (fun w hw => hni w (List.mem_cons_of_mem v hw))
    | some p => simpa only [hp] using hstep

/-- The scheduler never changes the database: either nothing passes the
SQL pre-filter and no property is iterated, or the first loop iteration
raises `AttributeError` before any record is created. -/
theorem schedule_snd_eq (db : DB) (now : Int) :
    (schedule_automatic_verifications db now).2 = db := by
  unfold schedule_automatic_verifications get_properties_due_for_verification
  cases db.properties.filter (dueSqlFilter now) with
  | nil => rfl
  | cons p ps => rfl

/-- C10: a record still `pending` whose expiration lies before `now` is
rejected by `process_verification_response` with the "Verification has
expired" failure before any effect is applied: the returned state is the
input state, so the record, the property and the history are unchanged. -/
theorem C10_expired_response_rejected (db : DB) (now : Int) (vid : Nat)
    (response : String) (rid : Nat) (v : Verification) (e : Int)
    (hv : db.getVerification vid = some v) (hp : v.status = "pending")
    (he : v.expiration = some e) (hlt : e < now) :
    process_verification_response db now vid response rid =
      (.ok ⟨false, "Verification has expired"⟩, db) := by
  unfold process_verification_response
  rw [hv]
  simp [hp, expirationLt, he, hlt]

/-- C10 witness: the theorem applied at `dbC10`, whose only record is
pending with expiration 0, queried at time 5. -/
theorem C10_witness :
    process_verification_response dbC10 5 1 "yes" 7 =
      (.ok ⟨false, "Verification has expired"⟩, dbC10) :=
  C10_expired_response_rejected dbC10 5 1 "yes" 7
    ⟨1, 1, "automatic", 0, "pending", none, some 0, some .emptyObj, some .emptyObj⟩ 0
    (by decide) (by decide) (by decide) (by decide)

/-- C1 (amended): the service-level `process_verification_response`
returns the "already processed" failure and leaves the state unchanged
whenever the record's status is not `pending`; the respond endpoint,
however, performs no status check at all — for an owner's call it
updates the record and appends one `owner_responded` history row
whatever the record's status is. -/
theorem C1_nonpending_response :
    (∀ (db : DB) (now : Int) (vid : Nat) (response : String) (rid : Nat) (v : Verification),
       db.getVerification vid = some v → v.status ≠ "pending" →
       process_verification_response db now vid response rid =
         (.ok ⟨false, "Verification already processed"⟩, db)) ∧
    (∀ (db : DB) (now : Int) (vid : Nat) (response : String) (uid : Nat)
       (v : Verification) (p : Property),
       db.getVerification vid = some v → db.getProperty v.property_id = some p →
       p.owner_id = uid →
       (respond_to_verification db now vid response uid).2.history =
         db.history ++
           [{ property_id := p.id
              status := "owner_responded"
              verified_by := "owner_" ++ toString uid
              timestamp := now
              notes := some ("Owner responded to verification request: "
                              ++ response.take 100 ++ "...") }]) := by
  constructor
  · intro db now vid response rid v hv hs
    unfold process_verification_response
    rw [hv]
    simp [hs]
  · intro db now vid response uid v p hv hp hown
    unfold respond_to_verification
    rw [hv]
    simp [hp, hown, updateVerificationById_history]

/-- C1 witness: both parts of the amended statement applied at `dbC1`
(record 1 is `expired`; property 1 is owned by user 5). -/
theorem C1_witness :
    process_verification_response dbC1 10 1 "yes" 5 =
      (.ok ⟨false, "Verification already processed"⟩, dbC1) ∧
    (respond_to_verification dbC1 10 1 "yes" 5).2.history =
      dbC1.history ++
        [{ property_id := 1
           status := "owner_responded"
           verified_by := "owner_" ++ toString 5
           timestamp := 10
           notes := some ("Owner responded to verification request: "
                           ++ "yes".take 100 ++ "...") }] :=
  ⟨C1_nonpending_response.1 dbC1 10 1 "yes" 5
      ⟨1, 1, "automatic", 0, "expired", none, some 0, none, some .emptyObj⟩
      (by decide) (by decide),
   C1_nonpending_response.2 dbC1 10 1 "yes" 5
      ⟨1, 1, "automatic", 0, "expired", none, some 0, none, some .emptyObj⟩
      ⟨1, 5, "available", "pending", some (1/2), none, none, ⟨some true, some 7⟩⟩
      (by decide) (by rfl) (by decide)⟩

/-- C1 counterexample: with record 1 of `dbC1` in the terminal status
`expired`, the respond endpoint does not return a Conflict — it returns
the updated record — and the state is not left unchanged: one history
row is appended. -/
theorem C1_counterexample :
    (respond_to_verification dbC1 10 1 "yes" 5).1 =
      .ok ⟨1, 1, "automatic", 0, "expired", some 5, some 0,
           some (.ownerResponse 5 "yes" 10), some .emptyObj⟩ ∧
    (respond_to_verification dbC1 10 1 "yes" 5).2.history.length = 1 ∧
    dbC1.history.length = 0 :=
  ⟨rfl, by decide, rfl⟩

/-- C8: no call to `process_verification_response` ever reports
success.  Every execution either returns one of the early failure
dictionaries (record missing, not pending, expired, property missing)
or raises `AttributeError` on the nonexistent
`CRUDProperty.update_availability_status` — so the claim's premise "a
successful ResponseProcessor call" is unsatisfiable, and in particular
no success ever appends a history entry. -/
theorem C8_no_successful_response (db : DB) (now : Int) (vid : Nat)
    (response : String) (rid : Nat) :
    isSuccess (process_verification_response db now vid response rid).1 = false := by
  unfold process_verification_response
  cases hv : db.getVerification vid with
  | none => rfl
  | some v =>
    by_cases hs : v.status ≠ "pending"
    · simp [hs, isSuccess]
    · by_cases he : expirationLt v.expiration now
      · simp [hs, he, isSuccess]
      · simp only [hs, he]
        cases hp : (updateVerificationById db v.id
            (fun w => { w with status := "completed", responder_id := some rid })).getProperty
            v.property_id with
        | none => simp [hs, he, hp, isSuccess]
        | some p => simp [hs, he, hp, isSuccess]

/-- C8 companion fact at the failing input: at `dbC10` (a pending record
with expiration 0, not yet expired at time 0, its property present) the
call raises `AttributeError` with the record already committed as
`completed` and no history entry written. -/
theorem C8_crash_at_failing_input :
    (process_verification_response dbC10 0 1 "yes" 5).1 =
      .error (.attributeError "update_availability_status") ∧
    statusById (process_verification_response dbC10 0 1 "yes" 5).2 1 = some "completed" ∧
    (process_verification_response dbC10 0 1 "yes" 5).2.history = [] :=
  ⟨rfl, rfl, rfl⟩

/-- C2: at `dbC2` — one `available`, never-verified property with
auto-verification enabled — the scheduler does not create the claimed
pending `automatic` record: its selection loop's first statement reads
the nonexistent attribute `auto_verification_settings_json` and the run
dies with `AttributeError`, leaving the database unchanged. -/
theorem C2_scheduler_attribute_error :
    schedule_automatic_verifications dbC2 (100 * day) =
      (.error (.attributeError "auto_verification_settings_json"), dbC2) ∧
    (schedule_automatic_verifications dbC2 (100 * day)).2.verifications = [] :=
  ⟨rfl, rfl⟩

/-- C3: at `dbC3` — one pending record with expiration 0, swept at time
1, its property present with reliability score 0.5 — the sweeper marks
the record `expired` but then dies on the undefined name
`VerificationHistoryCreate` before the score write is committed: the
score stays 0.5 instead of dropping to 0.4, and no history row appears.
Separately, the in-session score formula of line 207 maps a score of
exactly 0 to 0.4 (Python's `or` treats `0.0` as unset), where the claim
requires 0 to stay 0. -/
theorem C3_sweeper_crash_and_zero_score :
    (process_expired_verifications dbC3 1).1 =
      .error (.nameError "VerificationHistoryCreate") ∧
    statusById (process_expired_verifications dbC3 1).2 1 = some "expired" ∧
    scoreById (process_expired_verifications dbC3 1).2 1 = some (some (1/2)) ∧
    (process_expired_verifications dbC3 1).2.history = [] ∧
    newReliabilityScore (some 0) = 2/5 := by
  refine ⟨rfl, rfl, rfl, rfl, ?_⟩
  rw [newReliabilityScore]
  norm_num

/-- C4: at `dbC4` — the spec's scenario state, a pending unexpired
record on an `available` property — the owner's response `"available"`
does not complete as claimed: the service commits the record as
`completed`, then raises `AttributeError` on the missing
`update_availability_status`, so no history row is appended (the
property keeps `availability_status = "available"` only because nothing
ever touches it).  Moreover line 67 treats only `"yes"` as affirmative:
`"available"` would have set the property to `"rented"`. -/
theorem C4_owner_response_crash :
    (process_verification_response dbC4 0 1 "available" 5).1 =
      .error (.attributeError "update_availability_status") ∧
    statusById (process_verification_response dbC4 0 1 "available" 5).2 1 = some "completed" ∧
    (process_verification_response dbC4 0 1 "available" 5).2.properties = dbC4.properties ∧
    (process_verification_response dbC4 0 1 "available" 5).2.history = [] ∧
    responseToStatus "available" = "rented" :=
  ⟨rfl, rfl, rfl, rfl, by decide⟩

/-- C5 counterexample: in `dbC5` no property exists, and
`CRUDVerification.create` with `property_id = 1` fails with the raw
SQLite foreign-key `IntegrityError` — not with the NotFound or
ValueError domain errors the claim requires (nothing is persisted). -/
theorem C5_counterexample :
    CRUDVerification_create dbC5 0 { property_id := 1, verification_type := "owner" } =
      (.error .integrityError, dbC5) ∧
    PyErr.integrityError ≠ PyErr.httpNotFound ∧
    PyErr.integrityError ≠ PyErr.valueError := by
  refine ⟨rfl, by decide, by decide⟩

/-- C5 (amended): when the referenced property does not exist, the REST
endpoint fails with 404 NotFound and `CRUDProperty.create` raises
`ValueError` — domain-level errors — while the bare
`CRUDVerification.create` performs no existence check and fails only
with the foreign-key `IntegrityError`; in every case nothing is
persisted. -/
theorem C5_create_nonexistent_property (db : DB) (now : Int)
    (obj : VerificationCreate) (uid : Nat) (admin : Bool)
    (h : db.getProperty obj.property_id = none) :
    create_verification_endpoint db now obj uid admin = (.error .httpNotFound, db) ∧
    CRUDProperty_create db now obj = (.error .valueError, db) ∧
    CRUDVerification_create db now obj = (.error .integrityError, db) := by
  refine ⟨?_, ?_, ?_⟩
  · unfold create_verification_endpoint
    rw [h]
  · unfold CRUDProperty_create
    rw [h]
  · unfold CRUDVerification_create
    rw [h]

/-- C5 witness: the amended statement applied at `dbC5` (no properties)
with `property_id = 1`. -/
theorem C5_witness :
    create_verification_endpoint dbC5 0 { property_id := 1, verification_type := "owner" } 9 false =
      (.error .httpNotFound, dbC5) ∧
    CRUDProperty_create dbC5 0 { property_id := 1, verification_type := "owner" } =
      (.error .valueError, dbC5) ∧
    CRUDVerification_create dbC5 0 { property_id := 1, verification_type := "owner" } =
      (.error .integrityError, dbC5) :=
  C5_create_nonexistent_property dbC5 0 { property_id := 1, verification_type := "owner" }
    9 false (by decide)

/-- C6 counterexample: when the clock advances by one second between
the two `utcnow()` calls of `update_verification_status` (`t1 = 0`,
`t2 = 1`), the verified property gets `last_verified = 0` but
`expiration_date = 1 + 30 days`, so the two fields do not differ by
exactly 30 days. -/
theorem C6_counterexample :
    (update_verification_status dbC6 1 "verified" 0 1).1.map
        (fun p => (p.last_verified, p.expiration_date)) =
      some (some 0, some (1 + 30 * day)) ∧
    (1 + 30 * day : Int) - 0 ≠ 30 * day := by
  refine ⟨rfl, by decide⟩

/-- C6 (amended): `update_verification_status` with status `"verified"`
writes `last_verified := t1` (first `utcnow()` call) and
`expiration_date := t2 + 30 days` (second call); when the two calls
return the same instant `t` — the only case in which the claim's
"exactly 30 days apart" holds — the property ends with
`last_verified = t` and `expiration_date = t + 30 days`. -/
theorem C6_admin_verify_timestamps (db : DB) (pid : Nat) (t : Int) (p : Property)
    (h : db.getProperty pid = some p) :
    (update_verification_status db pid "verified" t t).1 =
      some { p with verification_status := "verified"
                    last_verified := some t
                    expiration_date := some (t + 30 * day) } := by
  unfold update_verification_status
  rw [h]
  rfl

/-- C6 witness: the amended statement applied at `dbC6` with both clock
readings equal to 1000. -/
theorem C6_witness :
    (update_verification_status dbC6 1 "verified" 1000 1000).1 =
      some { id := 1, owner_id := 5, availability_status := "available",
             verification_status := "verified", reliability_score := none,
             last_verified := some 1000, expiration_date := some (1000 + 30 * day),
             auto_verification_settings := ⟨some true, some 7⟩ } :=
  C6_admin_verify_timestamps dbC6 1 1000
    ⟨1, 5, "available", "pending", none, none, none, ⟨some true, some 7⟩⟩ (by decide)

/-- Replacing the history table does not change any status read. -/
theorem statusById_set_history (db : DB) (h : List VerificationHistory) (i : Nat) :
    statusById { db with history := h } i = statusById db i := rfl

/-- C7 counterexample: in `dbC7` record 1 is in the terminal status
`expired`, yet the admin update endpoint with payload
`status := "pending"` writes it back to `pending` — a terminal state is
reopened. -/
theorem C7_counterexample :
    statusById dbC7 1 = some "expired" ∧
    statusById (update_verification dbC7 1 { stat := some "pending" } true).2 1 =
      some "pending" := by
  exact ⟨rfl, rfl⟩

/-- C7 (amended): with pairwise-distinct record ids, the service
response processing, the respond endpoint, the sweeper and the
scheduler never change the status of a record that is in a terminal
state; the admin update endpoint (`PUT /verifications/:id`), however,
writes any supplied status unconditionally and can reopen a terminal
record. -/
theorem C7_terminal_never_reopened (db : DB) (now : Int) (i : Nat) (s : String)
    (hnd : (db.verifications.map (fun v => v.id)).Nodup)
    (hs : statusById db i = some s) (ht : s ∈ terminalStatuses) :
    (∀ (vid : Nat) (response : String) (rid : Nat),
       statusById (process_verification_response db now vid response rid).2 i = some s) ∧
    (∀ (vid : Nat) (response : String) (uid : Nat),
       statusById (respond_to_verification db now vid response uid).2 i = some s) ∧
    statusById (process_expired_verifications db now).2 i = some s ∧
    statusById (schedule_automatic_verifications db now).2 i = some s := by
  have hpend_not_terminal : ¬ ("pending" ∈ terminalStatuses) := by decide
  refine ⟨?_, ?_, ?_, ?_⟩
  · intro vid response rid
    unfold process_verification_response
    cases hv : db.getVerification vid with
    | none => exact hs
    | some v =>
      dsimp only
      by_cases hpend : v.status ≠ "pending"
      · rw [if_pos hpend]
        exact hs
      · rw [if_neg hpend]
        push_neg at hpend
        have hstep : statusById (updateVerificationById db v.id
            (fun w => { w with status := "completed", responder_id := some rid })) i =
            some s := by
          rw [statusById_update db v.id
            (fun w => { w with status := "completed", responder_id := some rid })
            (fun _ => rfl) i]
          cases hw : db.getVerification i with
          | none => rw [statusById, hw] at hs; cases hs
          | some w =>
            rw [statusById, hw] at hs
            simp only [Option.map_some'] at hs ⊢
            by_cases hwv : w.id = v.id
            · exfalso
              have hvi : v.id = vid := by simpa using List.find?_some hv
              have hwi : w.id = i := by simpa using List.find?_some hw
              have hiv : i = vid := by rw [← hwi, hwv, hvi]
              rw [hiv, hv] at hw
              cases hw
              rw [hpend] at hs
              rw [← Option.some.inj hs] at ht
              exact hpend_not_terminal ht
            · simp [hwv, hs]
        by_cases hexp : expirationLt v.expiration now = true
        · rw [if_pos hexp]
          exact hs
        · rw [if_neg hexp]
          cases hgp : (updateVerificationById db v.id
              (fun w => { w with status := "completed", responder_id := some rid })).getProperty
              v.property_id with
          | none => simp only [hgp]; exact hstep
          | some p => simp only [hgp]; exact hstep
  · intro vid response uid
    unfold respond_to_verification
    cases hv : db.getVerification vid with
    | none => exact hs
    | some v =>
      dsimp only
      cases hp : db.getProperty v.property_id with
      | none => exact hs
      | some p =>
        dsimp only
        by_cases hown : p.owner_id ≠ uid
        · rw [if_pos hown]
          exact hs
        · rw [if_neg hown]
          show statusById (updateVerificationById db v.id
            (fun w => { w with responder_id := some uid,
                               response_data := some (.ownerResponse uid response now) })) i =
            some s
          rw [statusById_update db v.id
            (fun w => { w with responder_id := some uid,
                               response_data := some (.ownerResponse uid response now) })
            (fun _ => rfl) i]
          cases hw : db.getVerification i with
          | none => rw [statusById, hw] at hs; cases hs
          | some w =>
            rw [statusById, hw] at hs
            simp only [Option.map_some'] at hs ⊢
            by_cases hwv : w.id = v.id <;> simp [hwv, hs]
  · apply sweepLoop_status_preserved now _ db 0 i s hs
    intro v hv hvi
    have hmem := List.mem_filter.mp hv
    have hpend : v.status = "pending" := by
      have hf := hmem.2
      rw [expiredPendingFilter, Bool.and_eq_true] at hf
      simpa using hf.1
    have hfind : db.verifications.find? (fun w => w.id == v.id) = some v :=
      find?_eq_of_nodup db.verifications hnd v hmem.1
    rw [← hvi] at hs
    rw [statusById, DB.getVerification, hfind] at hs
    simp only [Option.map_some'] at hs
    rw [hpend] at hs
    rw [← Option.some.inj hs] at ht
    exact hpend_not_terminal ht
  · rw [schedule_snd_eq]
    exact hs

/-- C7 witness: the amended statement applied at `dbC7w`, where record 5
is terminal (`verified`) and record 6 is pending, with the four
operations invoked concretely. -/
theorem C7_witness :
    statusById (process_verification_response dbC7w 0 6 "yes" 5).2 5 = some "verified" ∧
    statusById (respond_to_verification dbC7w 0 6 "yes" 5).2 5 = some "verified" ∧
    statusById (process_expired_verifications dbC7w 0).2 5 = some "verified" ∧
    statusById (schedule_automatic_verifications dbC7w 0).2 5 = some "verified" := by
  obtain ⟨a, b, c, d⟩ :=
    C7_terminal_never_reopened dbC7w 0 5 "verified" (by decide) (by decide) (by decide)
  exact ⟨a 6 "yes" 5, b 6 "yes" 5, c, d⟩

/-- C9: a record already in the terminal status `expired` is untouched
by a (further) run of the sweeper — its status stays `expired` because
the selection filter only matches `pending` records, and the properties
(hence every reliability score) and the history tables are returned
unchanged. -/
theorem C9_sweeper_noop_on_expired (db : DB) (now : Int) (i : Nat)
    (h : statusById db i = some "expired") :
    statusById (process_expired_verifications db now).2 i = some "expired" ∧
    (process_expired_verifications db now).2.properties = db.properties ∧
    (process_expired_verifications db now).2.history = db.history := by
  have h1 := sweepLoop_expired_stays now (db.verifications.filter (expiredPendingFilter now)) db 0 i h
  have h2 := sweepLoop_properties_history now (db.verifications.filter (expiredPendingFilter now)) db 0
  exact ⟨h1, h2.1, h2.2⟩

/-- C9 witness: the statement applied at `dbC9`, whose only record is
already `expired`. -/
theorem C9_witness :
    statusById (process_expired_verifications dbC9 0).2 1 = some "expired" ∧
    (process_expired_verifications dbC9 0).2.properties = dbC9.properties ∧
    (process_expired_verifications dbC9 0).2.history = dbC9.history :=
  C9_sweeper_noop_on_expired dbC9 0 1 (by decide)
